import Mathlib

/-!
Verification of the composite scoring and provenance-resolution engine of the
AEO results display (src/src/components/ResultsDisplay.tsx).

The engine consumes a loosely-typed JSON-like analysis payload, so we embed
JavaScript values shallowly: `JSVal` covers `undefined`, `null`, `NaN`,
booleans, (finite) numbers as rationals, strings, and plain objects as
association lists.  Property access, truthiness, `||`, `??`, `+`, `/`,
`Math.round` and `String(...)` are modelled on this type following JavaScript
semantics as exercised by the component.
-/

namespace AEO

/-- A JavaScript runtime value, as far as the results-display engine observes
it.  Finite numbers are rationals; `nan` stands for the IEEE NaN produced by
arithmetic on non-numeric operands (the component never produces infinities:
its only divisions are by the literals 3 and 4). -/
inductive JSVal where
  | undefined
  | null
  | nan
  | bool (b : Bool)
  | num (q : ℚ)
  | str (s : String)
  | obj (fields : List (String × JSVal))

/-- Association-list lookup used by `JSVal.get`. -/
def lookupField : List (String × JSVal) → String → JSVal
  | [], _ => .undefined
  | (k', v) :: rest, k => if k' = k then v else lookupField rest k

/-- Property access `v.k` (equivalently the guarded `v?.k` in every use in
this component: on every non-object — including `null` and `undefined`, where
the source guards the access with `!!`, `?.` or `&&` — the result is
`undefined`). -/
def JSVal.get (v : JSVal) (k : String) : JSVal :=
  match v with
  | .obj fs => lookupField fs k
  | _ => .undefined

/-- JavaScript truthiness. -/
def JSVal.truthy : JSVal → Bool
  | .undefined => false
  | .null => false
  | .nan => false
  | .bool b => b
  | .num q => if q = 0 then false else true
  | .str s => if s = "" then false else true
  | .obj _ => true

/-- `a || b`. -/
def jsOr (a b : JSVal) : JSVal := if a.truthy then a else b

/-- `a ?? b` (nullish coalescing). -/
def jsNullish (a b : JSVal) : JSVal :=
  match a with
  | .undefined => b
  | .null => b
  | _ => a

/-- Digit-string value, `none` when empty or containing a non-digit. -/
def digitsToNat : List Char → Option ℕ
  | [] => none
  | cs =>
    if cs.all Char.isDigit then
      some (cs.foldl (fun a c => a * 10 + (c.toNat - 48)) 0)
    else none

/-- JavaScript `ToNumber` on a string, restricted to the plain decimal
literals (optional sign, integer part, optional fraction) that can matter
here; exotic literal forms (hex, exponent, bare trailing dot) are mapped to
NaN.  The empty/whitespace string converts to 0 as in JavaScript. -/
def strToNumber (s : String) : JSVal :=
  let t := s.trim
  if t = "" then .num 0
  else
    let neg := t.startsWith "-"
    let body := if t.startsWith "-" || t.startsWith "+" then t.drop 1 else t
    match body.splitOn "." with
    | [ip] =>
      match digitsToNat ip.toList with
      | some n => .num (if neg then -(n : ℚ) else (n : ℚ))
      | none => .nan
    | [ip, fp] =>
      match digitsToNat ip.toList, digitsToNat fp.toList with
      | some n, some f =>
        let v : ℚ := (n : ℚ) + (f : ℚ) / ((10 : ℚ) ^ fp.length)
        .num (if neg then -v else v)
      | _, _ => .nan
    | _ => .nan

/-- JavaScript `ToNumber`.  A plain object's `ToPrimitive` is the string
`"[object Object]"`, which converts to NaN. -/
def toNumber : JSVal → JSVal
  | .undefined => .nan
  | .null => .num 0
  | .nan => .nan
  | .bool b => .num (if b then 1 else 0)
  | .num q => .num q
  | .str s => strToNumber s
  | .obj _ => .nan

/-- Rendering of a rational as a string.  Integral values render as in
JavaScript; a non-integral rational renders as `num/den` (the component's
data are integers wherever a rendered number is compared against anything,
so the fractional case is unreachable in the claims below). -/
def numToString (q : ℚ) : String :=
  if q.den = 1 then toString q.num else toString q.num ++ "/" ++ toString q.den

/-- JavaScript `ToString` / `String(...)` on the values the engine handles. -/
def JSVal.toStr : JSVal → String
  | .undefined => "undefined"
  | .null => "null"
  | .nan => "NaN"
  | .bool b => if b then "true" else "false"
  | .num q => numToString q
  | .str s => s
  | .obj _ => "[object Object]"

/-- Is the operand string-like for `+` (strings concatenate; plain objects
`ToPrimitive` to a string)? -/
def JSVal.isStringy : JSVal → Bool
  | .str _ => true
  | .obj _ => true
  | _ => false

/-- JavaScript `a + b`: string concatenation when either operand is
string-like, numeric addition (NaN-propagating) otherwise. -/
def jsAdd (a b : JSVal) : JSVal :=
  if a.isStringy || b.isStringy then .str (a.toStr ++ b.toStr)
  else
    match toNumber a, toNumber b with
    | .num x, .num y => .num (x + y)
    | _, _ => .nan

/-- JavaScript `a / n` for the positive literal divisors (3 and 4) appearing
in the component. -/
def jsDivNat (a : JSVal) (n : ℕ) : JSVal :=
  match toNumber a with
  | .num x => .num (x / (n : ℚ))
  | _ => .nan

/-- JavaScript `Math.round`: coerces with `ToNumber`, then floors at the half
(`Math.round x = ⌊x + 1/2⌋` for finite arguments); NaN passes through. -/
def mathRound (v : JSVal) : JSVal :=
  match toNumber v with
  | .num q => .num ((⌊q + 1 / 2⌋ : ℤ) : ℚ)
  | _ => .nan

/-! ## The scoring and provenance engine (ResultsDisplay.tsx) -/

/-- The `staticData` placeholder table (ResultsDisplay.tsx lines 37-56). -/
structure StaticData where
  overallScore : ℚ
  aiPresenceScore : ℚ
  competitorScore : ℚ
  strategyScore : ℚ
  chatgptScore : ℚ
  geminiScore : ℚ
  claudeScore : ℚ
  answerability : ℚ
  knowledgeBase : ℚ
  structuredData : ℚ
  aiCrawlerAccess : ℚ

def staticData : StaticData :=
  { overallScore := 72, aiPresenceScore := 68, competitorScore := 94
    strategyScore := 55, chatgptScore := 85, geminiScore := 20
    claudeScore := 100, answerability := 46, knowledgeBase := 100
    structuredData := 23, aiCrawlerAccess := 50 }

/-- `const detailedAnalysis = (result as any).detailed_analysis || {}`
(line 60). -/
def detailedAnalysis (result : JSVal) : JSVal :=
  jsOr (result.get "detailed_analysis") (.obj [])

/-- `container.score !== undefined`. -/
def scoreDefined (container : JSVal) : Bool :=
  match container.get "score" with
  | .undefined => false
  | _ => true

/-- The per-module availability test of `useRealData` (lines 64-73):
`!!da.<name> && da.<name>.score !== undefined`. -/
def moduleFlag (da : JSVal) (name : String) : Bool :=
  (da.get name).truthy && scoreDefined (da.get name)

/-- `useRealData.overallScore` — hardcoded `true` (line 63). -/
def overallFlag : Bool := true

/-- `useRealData.strategyReview` — hardcoded `true` (line 66). -/
def strategyReviewFlag : Bool := true

/-- `useRealData.structuredData` — hardcoded `true` (line 72). -/
def structuredDataFlag : Bool := true

/-- `realStructuredDataScore` (lines 77-79):
`result.structured_data ? Math.round((coverage + quality + completeness)/3) : 0`. -/
def realStructuredDataScore (result : JSVal) : JSVal :=
  if (result.get "structured_data").truthy then
    mathRound (jsDivNat
      (jsAdd
        (jsAdd ((result.get "structured_data").get "coverage_score")
               ((result.get "structured_data").get "quality_score"))
        ((result.get "structured_data").get "completeness_score")) 3)
  else .num 0

/-- `botName.toLowerCase()`: character-wise ASCII lowercasing (the bot and
agent names involved are ASCII). -/
def lowerString (s : String) : String := ⟨s.data.map Char.toLower⟩

/-- `getAIBotScore` (lines 97-118). -/
def getAIBotScore (da : JSVal) (botName : String) : ℚ :=
  if ((da.get "ai_presence").get "checks").truthy = false then
    match lowerString botName with
    | "gptbot" => staticData.chatgptScore
    | "google-extended" => staticData.geminiScore
    | "claudebot" => staticData.claudeScore
    | _ => 50
  else
    match ((da.get "ai_presence").get "checks").get ("robots_" ++ lowerString botName) with
    | .bool true => 85
    | .bool false => 20
    | _ => 50

/-- `isUsingRealAIData = da.ai_presence?.checks ? true : false` (line 125). -/
def isUsingRealAIData (da : JSVal) : Bool :=
  ((da.get "ai_presence").get "checks").truthy

/-- The LIVE/STATIC provenance tag attached to each displayed metric. -/
inductive Tag where
  | live
  | static
deriving DecidableEq, Repr

/-- A boolean availability flag rendered as its LIVE/STATIC badge. -/
def tagOf (b : Bool) : Tag := if b then .live else .static

/-- Overall displayed value (line 179):
`useRealData.overallScore && result.overall_score ? result.overall_score
 : staticData.overallScore`. -/
def overallDisplayed (result : JSVal) : JSVal :=
  if overallFlag && (result.get "overall_score").truthy then
    result.get "overall_score"
  else .num staticData.overallScore

/-- Overall provenance badge (line 193): `useRealData.overallScore`. -/
def overallTag (_result : JSVal) : Tag := tagOf overallFlag

/-- AI Presence category value (line 226):
`useRealData.aiPresence && da.ai_presence ? Math.round(da.ai_presence.score)
 : staticData.aiPresenceScore`. -/
def aiPresenceDisplayed (result : JSVal) : JSVal :=
  let da := detailedAnalysis result
  if moduleFlag da "ai_presence" && (da.get "ai_presence").truthy then
    mathRound ((da.get "ai_presence").get "score")
  else .num staticData.aiPresenceScore

/-- AI Presence badge (line 221). -/
def aiPresenceTag (result : JSVal) : Tag :=
  tagOf (moduleFlag (detailedAnalysis result) "ai_presence")

/-- Competitor Landscape value (lines 337-339). -/
def competitorDisplayed (result : JSVal) : JSVal :=
  let da := detailedAnalysis result
  if moduleFlag da "competitor_analysis" && (da.get "competitor_analysis").truthy then
    mathRound ((da.get "competitor_analysis").get "score")
  else .num staticData.competitorScore

/-- Competitor Landscape badge (line 332). -/
def competitorTag (result : JSVal) : Tag :=
  tagOf (moduleFlag (detailedAnalysis result) "competitor_analysis")

/-- The Strategy Review computed value (lines 376-381):
`Math.round(((da.answerability?.score || 0) + (da.knowledge_base?.score || 0)
 + realStructuredDataScore + (da.crawler_accessibility?.score || 0)) / 4)`. -/
def strategyReviewValue (result : JSVal) : JSVal :=
  let da := detailedAnalysis result
  mathRound (jsDivNat
    (jsAdd
      (jsAdd
        (jsAdd (jsOr ((da.get "answerability").get "score") (.num 0))
               (jsOr ((da.get "knowledge_base").get "score") (.num 0)))
        (realStructuredDataScore result))
      (jsOr ((da.get "crawler_accessibility").get "score") (.num 0))) 4)

/-- Strategy Review displayed value (lines 375-382). -/
def strategyReviewDisplayed (result : JSVal) : JSVal :=
  if strategyReviewFlag then strategyReviewValue result
  else .num staticData.strategyScore

/-- Strategy Review badge (line 370): `useRealData.strategyReview`. -/
def strategyReviewTag (_result : JSVal) : Tag := tagOf strategyReviewFlag

/-- `realChatGPTScore = getAIBotScore('gptbot')` (line 120). -/
def chatgptValue (result : JSVal) : JSVal :=
  .num (getAIBotScore (detailedAnalysis result) "gptbot")

/-- `realGeminiScore = getAIBotScore('google-extended')` (line 121). -/
def geminiValue (result : JSVal) : JSVal :=
  .num (getAIBotScore (detailedAnalysis result) "google-extended")

/-- `realClaudeScore = getAIBotScore('claudebot')` (line 122). -/
def claudeValue (result : JSVal) : JSVal :=
  .num (getAIBotScore (detailedAnalysis result) "claudebot")

/-- ChatGPT row badge (line 257): `isUsingRealAIData`. -/
def chatgptTag (result : JSVal) : Tag :=
  tagOf (isUsingRealAIData (detailedAnalysis result))

/-- Gemini row badge (line 286): `isUsingRealAIData`. -/
def geminiTag (result : JSVal) : Tag :=
  tagOf (isUsingRealAIData (detailedAnalysis result))

/-- Claude row badge (line 315): `isUsingRealAIData`. -/
def claudeTag (result : JSVal) : Tag :=
  tagOf (isUsingRealAIData (detailedAnalysis result))

/-- Answerability bar value (line 400):
`Math.round(da.answerability?.score || staticData.answerability)`. -/
def answerabilityDisplayed (result : JSVal) : JSVal :=
  mathRound (jsOr (((detailedAnalysis result).get "answerability").get "score")
                  (.num staticData.answerability))

/-- Answerability badge (line 406). -/
def answerabilityTag (result : JSVal) : Tag :=
  tagOf (moduleFlag (detailedAnalysis result) "answerability")

/-- Knowledge Base bar value (line 423). -/
def knowledgeBaseDisplayed (result : JSVal) : JSVal :=
  mathRound (jsOr (((detailedAnalysis result).get "knowledge_base").get "score")
                  (.num staticData.knowledgeBase))

/-- Knowledge Base badge (line 429). -/
def knowledgeBaseTag (result : JSVal) : Tag :=
  tagOf (moduleFlag (detailedAnalysis result) "knowledge_base")

/-- Structured Data bar badge (line 447): hardcoded LIVE. -/
def structuredDataTag (_result : JSVal) : Tag := .live

/-- AI Crawler Accessibility bar value (line 463, no rounding):
`da.crawler_accessibility?.score || staticData.aiCrawlerAccess`. -/
def crawlerDisplayed (result : JSVal) : JSVal :=
  jsOr (((detailedAnalysis result).get "crawler_accessibility").get "score")
       (.num staticData.aiCrawlerAccess)

/-- AI Crawler Accessibility badge (line 469). -/
def crawlerTag (result : JSVal) : Tag :=
  tagOf (moduleFlag (detailedAnalysis result) "crawler_accessibility")

/-- The fully annotated presentation model: the eleven tracked metric values
with their provenance tags. -/
structure PresentationModel where
  overallValue : JSVal
  overallProvenance : Tag
  aiPresenceValue : JSVal
  aiPresenceProvenance : Tag
  competitorValue : JSVal
  competitorProvenance : Tag
  strategyValue : JSVal
  strategyProvenance : Tag
  chatgptScore : JSVal
  chatgptProvenance : Tag
  geminiScore : JSVal
  geminiProvenance : Tag
  claudeScore : JSVal
  claudeProvenance : Tag
  answerabilityValue : JSVal
  answerabilityProvenance : Tag
  knowledgeBaseValue : JSVal
  knowledgeBaseProvenance : Tag
  structuredDataValue : JSVal
  structuredDataProvenance : Tag
  crawlerValue : JSVal
  crawlerProvenance : Tag

/-- Assembly of the annotated model computed in the component body for a
non-empty payload. -/
def presentModel (result : JSVal) : PresentationModel :=
  { overallValue := overallDisplayed result
    overallProvenance := overallTag result
    aiPresenceValue := aiPresenceDisplayed result
    aiPresenceProvenance := aiPresenceTag result
    competitorValue := competitorDisplayed result
    competitorProvenance := competitorTag result
    strategyValue := strategyReviewDisplayed result
    strategyProvenance := strategyReviewTag result
    chatgptScore := chatgptValue result
    chatgptProvenance := chatgptTag result
    geminiScore := geminiValue result
    geminiProvenance := geminiTag result
    claudeScore := claudeValue result
    claudeProvenance := claudeTag result
    answerabilityValue := answerabilityDisplayed result
    answerabilityProvenance := answerabilityTag result
    knowledgeBaseValue := knowledgeBaseDisplayed result
    knowledgeBaseProvenance := knowledgeBaseTag result
    structuredDataValue := realStructuredDataScore result
    structuredDataProvenance := structuredDataTag result
    crawlerValue := crawlerDisplayed result
    crawlerProvenance := crawlerTag result }

/-- The component's outcome: either the "No Analysis Data" panel or the
annotated model. -/
inductive RenderResult where
  | noData
  | model (m : PresentationModel)

/-- Top of the component (lines 13-25): `if (!result) return <NoData/>`,
otherwise the annotated model is computed. -/
def render (result : JSVal) : RenderResult :=
  if result.truthy then .model (presentModel result) else .noData

/-- One module cell of the exported flat CSV row (lines 1020-1024):
`da.<name>?.score ?? ''`. -/
def csvModuleField (result : JSVal) (name : String) : JSVal :=
  jsNullish (((detailedAnalysis result).get name).get "score") (.str "")

/-- The string a CSV cell serializes to: `String(row[h])` (line 1029); the
subsequent quoting step (line 1030) leaves a quote-free, comma-free string
unchanged. -/
def csvCellString (v : JSVal) : String := v.toStr

/-! ## Predicates used to state the claims -/

/-- The value is a number lying in the documented score range [0, 100]. -/
def numIn01 (v : JSVal) : Prop := ∃ q : ℚ, v = JSVal.num q ∧ 0 ≤ q ∧ q ≤ 100

/-- The named module's `score` field, reached through `detailed_analysis`, is
either absent (`undefined`) or a number in [0, 100] — the documented input
domain for one module. -/
def optScore01 (result : JSVal) (name : String) : Prop :=
  ((detailedAnalysis result).get name).get "score" = JSVal.undefined ∨
    numIn01 (((detailedAnalysis result).get name).get "score")

/-- The named module's `score` is the number `q`, or is absent and `q = 0`
(its contribution to the Strategy Review mean). -/
def scoreOrMissing (result : JSVal) (name : String) (q : ℚ) : Prop :=
  ((detailedAnalysis result).get name).get "score" = JSVal.num q ∨
    (((detailedAnalysis result).get name).get "score" = JSVal.undefined ∧ q = 0)

/-! ## Concrete payloads -/

/-- The empty payload: every module, `structured_data` and `overall_score`
absent. -/
def p0 : JSVal := .obj []

/-- Payload whose only Strategy-Review input is Answerability with score 80. -/
def pA : JSVal :=
  .obj [("detailed_analysis", .obj [("answerability", .obj [("score", .num 80)])])]

/-- Payload whose AI-Presence module has `score: null`. -/
def pNull : JSVal :=
  .obj [("detailed_analysis", .obj [("ai_presence", .obj [("score", .null)])])]

/-- Payload with `structured_data = {coverage_score: 90, quality_score: 80,
completeness_score: 70}`. -/
def pSD : JSVal :=
  .obj [("structured_data",
    .obj [("coverage_score", .num 90), ("quality_score", .num 80),
          ("completeness_score", .num 70)])]

/-- The robots-check map used by `pChecks`. -/
def checksFields : List (String × JSVal) :=
  [("robots_gptbot", .bool true), ("robots_google-extended", .bool false)]

/-- Payload whose AI-Presence module carries an explicit robots-check map:
gptbot allowed, google-extended blocked, claudebot unspecified. -/
def pChecks : JSVal :=
  .obj [("detailed_analysis",
    .obj [("ai_presence", .obj [("score", .num 70), ("checks", .obj checksFields)])])]

/-- Payload whose AI-Presence module is present (with a score) but has no
`checks` map. -/
def pNoChecks : JSVal :=
  .obj [("detailed_analysis", .obj [("ai_presence", .obj [("score", .num 70)])])]

/-- Payload with a defined, non-zero top-level `overall_score`. -/
def pOv : JSVal := .obj [("overall_score", .num 55)]

/-- Payload with `overall_score: 0`. -/
def pOv0 : JSVal := .obj [("overall_score", .num 0)]

/-- A fully populated payload: every module present with in-range scores. -/
def pFull : JSVal :=
  .obj
    [("overall_score", .num 88),
     ("structured_data",
       .obj [("coverage_score", .num 90), ("quality_score", .num 80),
             ("completeness_score", .num 70)]),
     ("detailed_analysis",
       .obj [("ai_presence",
                .obj [("score", .num 75), ("checks", .obj checksFields)]),
             ("competitor_analysis", .obj [("score", .num 60)]),
             ("knowledge_base", .obj [("score", .num 90)]),
             ("answerability", .obj [("score", .num 80)]),
             ("crawler_accessibility", .obj [("score", .num 40)])])]

/-- A thoroughly malformed payload: wrong-typed `overall_score`,
`structured_data` and modules. -/
def pBad : JSVal :=
  .obj [("overall_score", .str "not-a-number"),
        ("structured_data", .str "oops"),
        ("detailed_analysis",
          .obj [("ai_presence", .num 5),
                ("answerability", .obj [("score", .str "eighty")])])]

/-! ## Helper lemmas -/

theorem jsAdd_num (x y : ℚ) : jsAdd (.num x) (.num y) = .num (x + y) := rfl

theorem jsDivNat_num (x : ℚ) (n : ℕ) : jsDivNat (.num x) n = .num (x / (n : ℚ)) := rfl

theorem mathRound_num (q : ℚ) :
    mathRound (.num q) = .num ((⌊q + 1 / 2⌋ : ℤ) : ℚ) := rfl

/-- `x || 0` is the identity on numbers (a zero falls back to the zero
default, yielding the same value). -/
theorem jsOr_num_zero (q : ℚ) : jsOr (.num q) (.num 0) = .num q := by
  by_cases h : q = 0 <;> simp [jsOr, JSVal.truthy, h]

theorem jsOr_absent (d : JSVal) : jsOr .undefined d = d := rfl

/-- A successful field read implies the parent is an object, hence truthy. -/
theorem truthy_of_get_num {v : JSVal} {k : String} {q : ℚ}
    (h : v.get k = .num q) : v.truthy = true := by
  cases v <;> simp_all [JSVal.get, JSVal.truthy]

/-- A non-truthy value is not an object, so every field read yields
`undefined`. -/
theorem get_of_not_truthy {v : JSVal} (h : v.truthy = false) (k : String) :
    v.get k = .undefined := by
  cases v <;> simp_all [JSVal.truthy, JSVal.get]

/-- `scoreDefined` fails exactly when the `score` read is `undefined`. -/
theorem scoreDefined_false_iff (v : JSVal) :
    scoreDefined v = false ↔ v.get "score" = .undefined := by
  unfold scoreDefined
  cases h : v.get "score" <;> simp

/-- A module that is not Live has an `undefined` `score` read. -/
theorem score_undef_of_flag_false {da : JSVal} {name : String}
    (h : moduleFlag da name = false) : (da.get name).get "score" = .undefined := by
  unfold moduleFlag at h
  rcases Bool.and_eq_false_iff.mp h with h' | h'
  · exact get_of_not_truthy (by simpa using h') "score"
  · exact (scoreDefined_false_iff _).mp (by simpa using h')

/-- Range of the JavaScript rounding: `⌊q + 1/2⌋` stays in [0, 100] when `q`
does. -/
theorem floorHalf_range {q : ℚ} (h0 : 0 ≤ q) (h1 : q ≤ 100) :
    0 ≤ ((⌊q + 1 / 2⌋ : ℤ) : ℚ) ∧ ((⌊q + 1 / 2⌋ : ℤ) : ℚ) ≤ 100 := by
  constructor
  · have : (0 : ℤ) ≤ ⌊q + 1 / 2⌋ := Int.le_floor.mpr (by push_cast; linarith)
    exact_mod_cast this
  · have hlt : ⌊q + 1 / 2⌋ < 101 := Int.floor_lt.mpr (by push_cast; linarith)
    have : ⌊q + 1 / 2⌋ ≤ 100 := by omega
    exact_mod_cast this

theorem mathRound_range {q : ℚ} (h0 : 0 ≤ q) (h1 : q ≤ 100) :
    numIn01 (mathRound (.num q)) :=
  ⟨_, mathRound_num q, floorHalf_range h0 h1⟩

/-- Every branch of `getAIBotScore` returns one of the literals 85, 20, 50,
100, which all lie in [0, 100]. -/
theorem getAIBotScore_range (da : JSVal) (name : String) :
    0 ≤ getAIBotScore da name ∧ getAIBotScore da name ≤ 100 := by
  unfold getAIBotScore
  split
  · split <;> norm_num [staticData]
  · split <;> norm_num

/-- A module's Strategy-Review contribution `da.<name>?.score || 0`. -/
theorem strategyTerm_eq {result : JSVal} {name : String} {q : ℚ}
    (h : scoreOrMissing result name q) :
    jsOr (((detailedAnalysis result).get name).get "score") (.num 0) = .num q := by
  rcases h with h | ⟨h, rfl⟩
  · rw [h, jsOr_num_zero]
  · rw [h]; rfl

theorem strategyTerm_range {result : JSVal} {name : String}
    (h : optScore01 result name) :
    ∃ q : ℚ, jsOr (((detailedAnalysis result).get name).get "score") (.num 0) =
      .num q ∧ 0 ≤ q ∧ q ≤ 100 := by
  rcases h with h | ⟨q, hq, h0, h1⟩
  · exact ⟨0, by rw [h]; rfl, le_refl 0, by norm_num⟩
  · exact ⟨q, by rw [hq, jsOr_num_zero], h0, h1⟩

/-- Closed form of the Strategy Review value in terms of the four
contributions. -/
theorem strategyReviewValue_eq {result : JSVal} {a k s c : ℚ}
    (ha : scoreOrMissing result "answerability" a)
    (hk : scoreOrMissing result "knowledge_base" k)
    (hc : scoreOrMissing result "crawler_accessibility" c)
    (hs : realStructuredDataScore result = .num s) :
    strategyReviewValue result = .num ((⌊(a + k + s + c) / 4 + 1 / 2⌋ : ℤ) : ℚ) := by
  simp only [strategyReviewValue]
  rw [strategyTerm_eq ha, strategyTerm_eq hk, strategyTerm_eq hc, hs,
    jsAdd_num, jsAdd_num, jsAdd_num, jsDivNat_num, mathRound_num]
  norm_num

theorem realSD_absent {result : JSVal}
    (h : (result.get "structured_data").truthy = false) :
    realStructuredDataScore result = .num 0 := by
  unfold realStructuredDataScore
  rw [h]
  simp

/-- Closed form of the structured-data composite when the record is present
with numeric sub-scores. -/
theorem realSD_present {result : JSVal} {cv qu cp : ℚ}
    (h1 : (result.get "structured_data").get "coverage_score" = .num cv)
    (h2 : (result.get "structured_data").get "quality_score" = .num qu)
    (h3 : (result.get "structured_data").get "completeness_score" = .num cp) :
    realStructuredDataScore result = .num ((⌊(cv + qu + cp) / 3 + 1 / 2⌋ : ℤ) : ℚ) := by
  unfold realStructuredDataScore
  rw [truthy_of_get_num h1]
  simp only [if_true]
  rw [h1, h2, h3, jsAdd_num, jsAdd_num, jsDivNat_num, mathRound_num]
  norm_num

/-- Range of a `x || d` fallback whose default and value are in range. -/
theorem jsOr_default_range {v : JSVal} {d : ℚ} (hd0 : 0 ≤ d) (hd1 : d ≤ 100)
    (h : v = .undefined ∨ numIn01 v) :
    ∃ q : ℚ, jsOr v (.num d) = .num q ∧ 0 ≤ q ∧ q ≤ 100 := by
  rcases h with rfl | ⟨q, rfl, h0, h1⟩
  · exact ⟨d, rfl, hd0, hd1⟩
  · by_cases hq : q = 0
    · subst hq
      exact ⟨d, by simp [jsOr, JSVal.truthy], hd0, hd1⟩
    · exact ⟨q, by simp [jsOr, JSVal.truthy, hq], h0, h1⟩

/-- Range of the `flag && container ? Math.round(score) : fallback` pattern
shared by the AI-Presence and Competitor category values. -/
theorem moduleDisplayed_range (result : JSVal) (name : String) (fallback : ℚ)
    (hf0 : 0 ≤ fallback) (hf1 : fallback ≤ 100) (h : optScore01 result name) :
    numIn01
      (if moduleFlag (detailedAnalysis result) name &&
          ((detailedAnalysis result).get name).truthy then
        mathRound (((detailedAnalysis result).get name).get "score")
      else .num fallback) := by
  rcases h with h | ⟨q, hq, h0, h1⟩
  · have hflag : moduleFlag (detailedAnalysis result) name = false := by
      unfold moduleFlag
      cases ht : ((detailedAnalysis result).get name).truthy
      · simp
      · simp [scoreDefined, h]
    rw [hflag]
    exact ⟨fallback, by simp, hf0, hf1⟩
  · have ht := truthy_of_get_num hq
    have hflag : moduleFlag (detailedAnalysis result) name = true := by
      unfold moduleFlag
      rw [ht]
      simp [scoreDefined, hq]
    rw [hflag, ht]
    simp only [Bool.and_self, if_true]
    rw [hq]
    exact mathRound_range h0 h1

/-- An in-domain module score yields a Strategy-Review contribution with its
bounds. -/
theorem scoreOrMissing_of_opt {result : JSVal} {name : String}
    (h : optScore01 result name) :
    ∃ q : ℚ, scoreOrMissing result name q ∧ 0 ≤ q ∧ q ≤ 100 := by
  rcases h with h | ⟨q, hq, h0, h1⟩
  · exact ⟨0, Or.inr ⟨h, rfl⟩, le_refl 0, by norm_num⟩
  · exact ⟨q, Or.inl hq, h0, h1⟩

/-- Range of the structured-data composite over the documented domain. -/
theorem realSD_range {result : JSVal}
    (hsd : (result.get "structured_data").truthy = false ∨
      (numIn01 ((result.get "structured_data").get "coverage_score") ∧
       numIn01 ((result.get "structured_data").get "quality_score") ∧
       numIn01 ((result.get "structured_data").get "completeness_score"))) :
    ∃ s : ℚ, realStructuredDataScore result = JSVal.num s ∧ 0 ≤ s ∧ s ≤ 100 := by
  rcases hsd with h | ⟨⟨cv, h1, hcv0, hcv1⟩, ⟨qu, h2, hqu0, hqu1⟩, ⟨cp, h3, hcp0, hcp1⟩⟩
  · exact ⟨0, realSD_absent h, le_refl 0, by norm_num⟩
  · refine ⟨_, realSD_present h1 h2 h3, floorHalf_range ?_ ?_⟩
    · have hs : (0 : ℚ) ≤ cv + qu + cp := by linarith
      exact div_nonneg hs (by norm_num)
    · rw [div_le_iff₀ (by norm_num : (0 : ℚ) < 3)]
      linarith

/-! ## Claims -/

/-- **C1** (counterexample): the claim says the composite StrategyReview and
Overall metrics are tagged Live only if every contributing category is Live,
and that with all five modules absent Overall = 72 is tagged Static.  On the
empty payload every module is absent and Overall is indeed the placeholder
72, yet both composite badges are Live: the `useRealData.overallScore` and
`useRealData.strategyReview` flags are hardcoded `true`. -/
theorem C1_counterexample :
    moduleFlag (detailedAnalysis p0) "ai_presence" = false ∧
    moduleFlag (detailedAnalysis p0) "competitor_analysis" = false ∧
    moduleFlag (detailedAnalysis p0) "knowledge_base" = false ∧
    moduleFlag (detailedAnalysis p0) "answerability" = false ∧
    moduleFlag (detailedAnalysis p0) "crawler_accessibility" = false ∧
    overallDisplayed p0 = JSVal.num 72 ∧
    overallTag p0 = Tag.live ∧
    strategyReviewTag p0 = Tag.live :=
  ⟨rfl, rfl, rfl, rfl, rfl, rfl, rfl, rfl⟩

/-- **C1** (amended): the StrategyReview and Overall provenance badges are
unconditionally Live for every payload (their availability flags are
hardcoded `true`); with the top-level `overall_score` absent — in particular
on a payload with all five modules absent — Overall still displays the
placeholder 72, tagged Live rather than Static. -/
theorem C1_amended (result : JSVal) :
    overallTag result = Tag.live ∧
    strategyReviewTag result = Tag.live ∧
    (result.get "overall_score" = JSVal.undefined →
      overallDisplayed result = JSVal.num 72) := by
  refine ⟨rfl, rfl, fun h => ?_⟩
  unfold overallDisplayed overallFlag
  rw [h]
  simp [JSVal.truthy, staticData]

/-- **C1** (witness): the amended claim evaluated on the empty payload. -/
theorem C1_witness :
    overallTag p0 = Tag.live ∧ strategyReviewTag p0 = Tag.live ∧
    overallDisplayed p0 = JSVal.num 72 :=
  ⟨(C1_amended p0).1, (C1_amended p0).2.1, (C1_amended p0).2.2 rfl⟩

/-- **C2**: per-bot accessibility scores.  When the AIPresence `checks` map
is present (an object), the score for a bot is 85 if `robots_<agent>` is
explicitly `true`, 20 if explicitly `false`, and 50 if the key is absent,
with the agent name matched case-insensitively (lowercased).  When `checks`
is entirely absent, the three bots take the fixed fallbacks ChatGPT 85,
Gemini 20, Claude 100, unrecognized bot names default to 50, and all three
per-bot metrics are tagged Static. -/
theorem C2_botScores (result : JSVal) (fs : List (String × JSVal)) (name : String) :
    (((detailedAnalysis result).get "ai_presence").get "checks" = JSVal.obj fs →
      ((JSVal.obj fs).get ("robots_" ++ lowerString name) = JSVal.bool true →
        getAIBotScore (detailedAnalysis result) name = 85) ∧
      ((JSVal.obj fs).get ("robots_" ++ lowerString name) = JSVal.bool false →
        getAIBotScore (detailedAnalysis result) name = 20) ∧
      ((JSVal.obj fs).get ("robots_" ++ lowerString name) = JSVal.undefined →
        getAIBotScore (detailedAnalysis result) name = 50)) ∧
    (((detailedAnalysis result).get "ai_presence").get "checks" = JSVal.undefined →
      chatgptValue result = JSVal.num 85 ∧
      geminiValue result = JSVal.num 20 ∧
      claudeValue result = JSVal.num 100 ∧
      (lowerString name ≠ "gptbot" → lowerString name ≠ "google-extended" →
        lowerString name ≠ "claudebot" →
        getAIBotScore (detailedAnalysis result) name = 50) ∧
      chatgptTag result = Tag.static ∧
      geminiTag result = Tag.static ∧
      claudeTag result = Tag.static) := by
  constructor
  · intro h
    refine ⟨?_, ?_, ?_⟩ <;> intro hkey <;>
      (unfold getAIBotScore; rw [h]; simp [JSVal.truthy, hkey])
  · intro h
    refine ⟨?_, ?_, ?_, ?_, ?_, ?_, ?_⟩
    · unfold chatgptValue getAIBotScore
      rw [h]
      rfl
    · unfold geminiValue getAIBotScore
      rw [h]
      rfl
    · unfold claudeValue getAIBotScore
      rw [h]
      rfl
    · intro h1 h2 h3
      unfold getAIBotScore
      rw [h]
      simp only [JSVal.truthy, if_true]
    · unfold chatgptTag tagOf isUsingRealAIData
      rw [h]
      rfl
    · unfold geminiTag tagOf isUsingRealAIData
      rw [h]
      rfl
    · unfold claudeTag tagOf isUsingRealAIData
      rw [h]
      rfl

/-- **C2** (witness): the bot-score rules evaluated on a payload with an
explicit checks map (gptbot allowed, google-extended blocked, claudebot
unspecified) and on a payload with no checks map at all. -/
theorem C2_witness :
    getAIBotScore (detailedAnalysis pChecks) "gptbot" = 85 ∧
    getAIBotScore (detailedAnalysis pChecks) "google-extended" = 20 ∧
    getAIBotScore (detailedAnalysis pChecks) "claudebot" = 50 ∧
    chatgptValue pNoChecks = JSVal.num 85 ∧
    geminiValue pNoChecks = JSVal.num 20 ∧
    claudeValue pNoChecks = JSVal.num 100 ∧
    getAIBotScore (detailedAnalysis pNoChecks) "Foobot" = 50 ∧
    chatgptTag pNoChecks = Tag.static ∧
    geminiTag pNoChecks = Tag.static ∧
    claudeTag pNoChecks = Tag.static := by
  have h1 := (C2_botScores pChecks checksFields "gptbot").1 rfl
  have h2 := (C2_botScores pChecks checksFields "google-extended").1 rfl
  have h3 := (C2_botScores pChecks checksFields "claudebot").1 rfl
  have h4 := (C2_botScores pNoChecks [] "Foobot").2 rfl
  exact ⟨h1.1 rfl, h2.2.1 rfl, h3.2.2 rfl, h4.1, h4.2.1, h4.2.2.1,
    h4.2.2.2.1 (by decide) (by decide) (by decide),
    h4.2.2.2.2.1, h4.2.2.2.2.2.1, h4.2.2.2.2.2.2⟩

/-- **C3**: the displayed Strategy Review equals
`round((a + k + sdc + c) / 4)` where `a`, `k`, `c` are the Answerability,
Knowledge-Base and Crawler-Accessibility scores (0 when the module's score
is absent), `sdc` is the structured-data composite, and the divisor stays 4
no matter how many inputs are missing. -/
theorem C3_strategyReview (result : JSVal) (a k c s : ℚ)
    (ha : scoreOrMissing result "answerability" a)
    (hk : scoreOrMissing result "knowledge_base" k)
    (hc : scoreOrMissing result "crawler_accessibility" c)
    (hs : realStructuredDataScore result = JSVal.num s) :
    strategyReviewDisplayed result =
      JSVal.num ((⌊(a + k + s + c) / 4 + 1 / 2⌋ : ℤ) : ℚ) := by
  unfold strategyReviewDisplayed strategyReviewFlag
  simp only [if_true]
  exact strategyReviewValue_eq ha hk hc hs

/-- **C3** (witness): only Answerability present with score 80 gives
`round((80 + 0 + 0 + 0) / 4) = 20`. -/
theorem C3_witness : strategyReviewDisplayed pA = JSVal.num 20 := by
  have h := C3_strategyReview pA 80 0 0 0 (Or.inl rfl) (Or.inr ⟨rfl, rfl⟩)
    (Or.inr ⟨rfl, rfl⟩) rfl
  rw [h]
  norm_num

/-- **C4**: the displayed Overall score is the payload's top-level
`overall_score` when that field is a defined non-zero number, and the fixed
placeholder 72 otherwise (both when it is 0 and when it is undefined). -/
theorem C4_overall (result : JSVal) (q : ℚ) :
    (result.get "overall_score" = JSVal.num q → q ≠ 0 →
      overallDisplayed result = JSVal.num q) ∧
    (result.get "overall_score" = JSVal.num 0 →
      overallDisplayed result = JSVal.num 72) ∧
    (result.get "overall_score" = JSVal.undefined →
      overallDisplayed result = JSVal.num 72) := by
  refine ⟨fun h hq => ?_, fun h => ?_, fun h => ?_⟩ <;>
    (unfold overallDisplayed overallFlag; rw [h]) <;>
    simp [JSVal.truthy, staticData, *]

/-- **C4** (witness): `overall_score` 55 displays as 55; 0 and undefined
display as the placeholder 72 (the latter also being the all-modules-absent
payload). -/
theorem C4_witness :
    overallDisplayed pOv = JSVal.num 55 ∧
    overallDisplayed pOv0 = JSVal.num 72 ∧
    overallDisplayed p0 = JSVal.num 72 :=
  ⟨(C4_overall pOv 55).1 rfl (by norm_num),
   (C4_overall pOv0 0).2.1 rfl,
   (C4_overall p0 0).2.2 rfl⟩

/-- **C5** (counterexample): the claim says a module with a `null` score
field is treated as not live, but the resolver only tests
`score !== undefined`: on a payload whose AI-Presence module has
`score: null` the module counts as Live and its badge reads Live. -/
theorem C5_counterexample :
    moduleFlag (detailedAnalysis pNull) "ai_presence" = true ∧
    aiPresenceTag pNull = Tag.live :=
  ⟨rfl, rfl⟩

/-- **C5** (amended): a module is treated as Live iff its container is
truthy and its `score` field is defined (not `undefined`).  Absent
containers and absent `score` fields are not live, but a defined `null` or
wrong-typed `score` still counts as live. -/
theorem C5_amended (da : JSVal) (name : String) :
    moduleFlag da name = true ↔
      ((da.get name).truthy = true ∧ (da.get name).get "score" ≠ JSVal.undefined) := by
  unfold moduleFlag
  rw [Bool.and_eq_true]
  apply and_congr_right
  intro _
  unfold scoreDefined
  cases h : (da.get name).get "score" <;> simp [h]

/-- **C5** (witness): the amended rule evaluated on the `score: null`
payload, a score-less module, and a numeric score. -/
theorem C5_witness :
    (JSVal.null ≠ JSVal.undefined → moduleFlag (detailedAnalysis pNull) "ai_presence" = true) ∧
    moduleFlag (detailedAnalysis pA) "answerability" = true ∧
    moduleFlag (detailedAnalysis pA) "knowledge_base" = false :=
  ⟨fun h => (C5_amended (detailedAnalysis pNull) "ai_presence").mpr ⟨rfl, h⟩,
   (C5_amended (detailedAnalysis pA) "answerability").mpr ⟨rfl, by exact nofun⟩,
   rfl⟩

/-- **C6**: the structured-data composite is
`round((coverage_score + quality_score + completeness_score) / 3)` when the
`structured_data` record is present with its three numeric sub-scores, and 0
when the record is entirely absent. -/
theorem C6_structuredData (result : JSVal) (cv qu cp : ℚ) :
    (result.get "structured_data" = JSVal.undefined →
      realStructuredDataScore result = JSVal.num 0) ∧
    ((result.get "structured_data").get "coverage_score" = JSVal.num cv →
     (result.get "structured_data").get "quality_score" = JSVal.num qu →
     (result.get "structured_data").get "completeness_score" = JSVal.num cp →
      realStructuredDataScore result =
        JSVal.num ((⌊(cv + qu + cp) / 3 + 1 / 2⌋ : ℤ) : ℚ)) := by
  constructor
  · intro h
    exact realSD_absent (by rw [h]; rfl)
  · intro h1 h2 h3
    exact realSD_present h1 h2 h3

/-- **C6** (witness): coverage 90, quality 80, completeness 70 gives
`round(240 / 3) = 80`; an absent record gives 0. -/
theorem C6_witness :
    realStructuredDataScore pSD = JSVal.num 80 ∧
    realStructuredDataScore p0 = JSVal.num 0 := by
  constructor
  · have h := (C6_structuredData pSD 90 80 70).2 rfl rfl rfl
    rw [h]
    norm_num
  · exact (C6_structuredData p0 0 0 0).1 rfl

/-- **C7**: in the exported flat CSV row, the score cell of a module that is
not Live serializes as the empty string — never as the string "0". -/
theorem C7_csvEmpty (result : JSVal) (name : String)
    (h : moduleFlag (detailedAnalysis result) name = false) :
    csvCellString (csvModuleField result name) = "" ∧
    csvCellString (csvModuleField result name) ≠ "0" := by
  have hu : ((detailedAnalysis result).get name).get "score" = JSVal.undefined :=
    score_undef_of_flag_false h
  have he : csvCellString (csvModuleField result name) = "" := by
    unfold csvCellString csvModuleField
    rw [hu]
    rfl
  exact ⟨he, by rw [he]; simp⟩

/-- **C7** (witness): a run with no CompetitorAnalysis module serializes the
`competitor_analysis` cell as the empty string, not "0". -/
theorem C7_witness :
    csvCellString (csvModuleField pA "competitor_analysis") = "" ∧
    csvCellString (csvModuleField pA "competitor_analysis") ≠ "0" :=
  C7_csvEmpty pA "competitor_analysis" rfl

/-- **C8**: the presentation computation is total: a falsy payload (no
result supplied) yields the well-defined no-data model, and every other
payload — with any combination of present, absent or malformed optional
fields — yields the annotated presentation model; being a total function of
the payload, it never throws. -/
theorem C8_total (result : JSVal) :
    (result.truthy = false → render result = RenderResult.noData) ∧
    (result.truthy = true → render result = RenderResult.model (presentModel result)) := by
  constructor <;> intro h <;> unfold render <;> rw [h] <;> rfl

/-- **C8** (witness): an absent payload renders the no-data model; the empty
object and a malformed payload (wrong-typed modules) render full models. -/
theorem C8_witness :
    render JSVal.undefined = RenderResult.noData ∧
    render p0 = RenderResult.model (presentModel p0) ∧
    render pBad = RenderResult.model (presentModel pBad) :=
  ⟨(C8_total JSVal.undefined).1 rfl, (C8_total p0).2 rfl, (C8_total pBad).2 rfl⟩

/-- **C9**: over the documented input domain (every present module score,
the top-level `overall_score` and every present structured-data sub-score a
number in [0, 100]), all derived and displayed metric values — Overall, the
category values, the three per-bot scores, the structured-data composite and
Strategy Review — are numbers in [0, 100]. -/
theorem C9_range (result : JSVal)
    (hov : result.get "overall_score" = JSVal.undefined ∨
      numIn01 (result.get "overall_score"))
    (hai : optScore01 result "ai_presence")
    (hcomp : optScore01 result "competitor_analysis")
    (hans : optScore01 result "answerability")
    (hkb : optScore01 result "knowledge_base")
    (hcr : optScore01 result "crawler_accessibility")
    (hsd : (result.get "structured_data").truthy = false ∨
      (numIn01 ((result.get "structured_data").get "coverage_score") ∧
       numIn01 ((result.get "structured_data").get "quality_score") ∧
       numIn01 ((result.get "structured_data").get "completeness_score"))) :
    numIn01 (overallDisplayed result) ∧
    numIn01 (aiPresenceDisplayed result) ∧
    numIn01 (competitorDisplayed result) ∧
    numIn01 (strategyReviewDisplayed result) ∧
    numIn01 (chatgptValue result) ∧
    numIn01 (geminiValue result) ∧
    numIn01 (claudeValue result) ∧
    numIn01 (realStructuredDataScore result) ∧
    numIn01 (answerabilityDisplayed result) ∧
    numIn01 (knowledgeBaseDisplayed result) ∧
    numIn01 (crawlerDisplayed result) := by
  obtain ⟨s, hseq, hs0, hs1⟩ := realSD_range hsd
  refine ⟨?_, ?_, ?_, ?_, ?_, ?_, ?_, ?_, ?_, ?_, ?_⟩
  · -- Overall
    rcases hov with h | ⟨q, hq, h0, h1⟩
    · unfold overallDisplayed overallFlag
      rw [h]
      exact ⟨72, by simp [JSVal.truthy, staticData], by norm_num⟩
    · unfold overallDisplayed overallFlag
      rw [hq]
      by_cases hz : q = 0
      · exact ⟨72, by simp [JSVal.truthy, hz, staticData], by norm_num⟩
      · exact ⟨q, by simp [JSVal.truthy, hz], h0, h1⟩
  · exact moduleDisplayed_range result "ai_presence" staticData.aiPresenceScore
      (by norm_num [staticData]) (by norm_num [staticData]) hai
  · exact moduleDisplayed_range result "competitor_analysis" staticData.competitorScore
      (by norm_num [staticData]) (by norm_num [staticData]) hcomp
  · -- Strategy Review
    obtain ⟨a, hA, ha0, ha1⟩ := scoreOrMissing_of_opt hans
    obtain ⟨k, hK, hk0, hk1⟩ := scoreOrMissing_of_opt hkb
    obtain ⟨c, hC, hc0, hc1⟩ := scoreOrMissing_of_opt hcr
    unfold strategyReviewDisplayed strategyReviewFlag
    simp only [if_true]
    rw [strategyReviewValue_eq hA hK hC hseq]
    refine ⟨_, rfl, floorHalf_range ?_ ?_⟩
    · have hsum : (0 : ℚ) ≤ a + k + s + c := by linarith
      exact div_nonneg hsum (by norm_num)
    · rw [div_le_iff₀ (by norm_num : (0 : ℚ) < 4)]
      linarith
  · exact ⟨_, rfl, getAIBotScore_range (detailedAnalysis result) "gptbot"⟩
  · exact ⟨_, rfl, getAIBotScore_range (detailedAnalysis result) "google-extended"⟩
  · exact ⟨_, rfl, getAIBotScore_range (detailedAnalysis result) "claudebot"⟩
  · exact ⟨s, hseq, hs0, hs1⟩
  · -- Answerability bar
    obtain ⟨q, hq, h0, h1⟩ := jsOr_default_range (d := staticData.answerability)
      (by norm_num [staticData]) (by norm_num [staticData]) hans
    unfold answerabilityDisplayed
    rw [hq]
    exact mathRound_range h0 h1
  · -- Knowledge Base bar
    obtain ⟨q, hq, h0, h1⟩ := jsOr_default_range (d := staticData.knowledgeBase)
      (by norm_num [staticData]) (by norm_num [staticData]) hkb
    unfold knowledgeBaseDisplayed
    rw [hq]
    exact mathRound_range h0 h1
  · -- Crawler bar
    obtain ⟨q, hq, h0, h1⟩ := jsOr_default_range (d := staticData.aiCrawlerAccess)
      (by norm_num [staticData]) (by norm_num [staticData]) hcr
    unfold crawlerDisplayed
    rw [hq]
    exact ⟨q, rfl, h0, h1⟩

/-- **C9** (witness): the range invariant evaluated on a fully populated
in-domain payload. -/
theorem C9_witness :
    numIn01 (overallDisplayed pFull) ∧
    numIn01 (aiPresenceDisplayed pFull) ∧
    numIn01 (competitorDisplayed pFull) ∧
    numIn01 (strategyReviewDisplayed pFull) ∧
    numIn01 (chatgptValue pFull) ∧
    numIn01 (geminiValue pFull) ∧
    numIn01 (claudeValue pFull) ∧
    numIn01 (realStructuredDataScore pFull) ∧
    numIn01 (answerabilityDisplayed pFull) ∧
    numIn01 (knowledgeBaseDisplayed pFull) ∧
    numIn01 (crawlerDisplayed pFull) :=
  C9_range pFull
    (Or.inr ⟨88, rfl, by norm_num⟩)
    (Or.inr ⟨75, rfl, by norm_num⟩)
    (Or.inr ⟨60, rfl, by norm_num⟩)
    (Or.inr ⟨80, rfl, by norm_num⟩)
    (Or.inr ⟨90, rfl, by norm_num⟩)
    (Or.inr ⟨40, rfl, by norm_num⟩)
    (Or.inr ⟨⟨90, rfl, by norm_num⟩, ⟨80, rfl, by norm_num⟩, ⟨70, rfl, by norm_num⟩⟩)

/-- **C10**: the three per-bot provenance badges are one and the same
indicator: ChatGPT, Gemini and Claude are all tagged Live exactly when the
AIPresence `checks` map is truthy, and all tagged Static otherwise — they
can never disagree. -/
theorem C10_botTags (result : JSVal) :
    chatgptTag result = geminiTag result ∧
    geminiTag result = claudeTag result ∧
    (chatgptTag result = Tag.live ↔
      (((detailedAnalysis result).get "ai_presence").get "checks").truthy = true) := by
  refine ⟨rfl, rfl, ?_⟩
  unfold chatgptTag tagOf isUsingRealAIData
  cases h : (((detailedAnalysis result).get "ai_presence").get "checks").truthy <;> simp

end AEO
